import Mathlib

/-!
Verification of `zotero-info-update`: a one-shot utility that connects to a
Zotero SQLite database, resolves an item by a fuzzy title match, and updates
the item's `dateAdded` column.

The embedding below follows `src/zotero_info_update/zotero_info_update.py`
(class `ZoteroInfoUpdate`: `connect_to_db`, `get_item_id`, `update_date_added`)
and the `__main__` block of `src/zotero_info_update/main.py`.  The three SQLite
tables the program touches (`items`, `itemData`, `itemDataValues`) are modelled
as lists of rows; the SQL statements the program issues are modelled as Lean
functions over those lists, with SQLite's documented semantics for `LIKE`
(case-insensitive for ASCII, `%` and `_` wildcards) and for connection opening.
-/

deriving instance DecidableEq for Except

namespace ZoteroInfoUpdate

/-- A row of the `items` table, with the columns this program touches:
`itemID`, `dateAdded`, `clientDateModified`. -/
structure Item where
  itemID : Nat
  dateAdded : String
  clientDateModified : String
deriving DecidableEq, Repr

/-- A row of the `itemData` indirection table: links an item to a value. -/
structure ItemDataRow where
  itemID : Nat
  valueID : Nat
deriving DecidableEq, Repr

/-- A row of the `itemDataValues` table: a text value owned by items via
`itemData`. -/
structure ItemDataValue where
  valueID : Nat
  value : String
deriving DecidableEq, Repr

/-- The slice of the Zotero SQLite database this program reads and writes. -/
structure DB where
  items : List Item
  itemData : List ItemDataRow
  itemDataValues : List ItemDataValue
deriving DecidableEq, Repr

/-- SQLite `LIKE` matching on character lists: `%` matches any sequence of
characters, `_` matches exactly one character, any other pattern character
matches case-insensitively (SQLite's `LIKE` is case-insensitive for ASCII,
which is what `Char.toLower` folds).  The `fuel` argument is a structural
bound on the recursion; every call decreases `pattern.length + s.length`,
so `likeMatch` below supplies enough fuel for the recursion never to be cut
short. -/
def likeMatchFuel : Nat → List Char → List Char → Bool
  | 0, _, _ => false
  | _ + 1, [], s => s.isEmpty
  | fuel + 1, '%' :: ps, s =>
      likeMatchFuel fuel ps s ||
        (match s with
         | [] => false
         | _ :: cs => likeMatchFuel fuel ('%' :: ps) cs)
  | fuel + 1, '_' :: ps, s =>
      (match s with
       | [] => false
       | _ :: cs => likeMatchFuel fuel ps cs)
  | fuel + 1, p :: ps, s =>
      (match s with
       | [] => false
       | c :: cs => (p.toLower == c.toLower) && likeMatchFuel fuel ps cs)

/-- `likeMatch pattern s` is SQLite's `s LIKE pattern` (no `ESCAPE` clause). -/
def likeMatch (pattern s : String) : Bool :=
  likeMatchFuel (pattern.length + s.length + 1) pattern.toList s.toList

/-- A row of the result set of the `SELECT` issued by `get_item_id`
(src lines 130-139): `i.itemID, id.valueID, idv.value, i.dateAdded,
i.clientDateModified`. -/
structure QueryRow where
  itemID : Nat
  valueID : Nat
  value : String
  dateAdded : String
  clientDateModified : String
deriving DecidableEq, Repr

/-- The projection applied to a joined `items` row in the `SELECT` list of
`get_item_id`'s query: `i.itemID, id.valueID, idv.value, i.dateAdded,
i.clientDateModified`. -/
def mkQueryRow (valueID : Nat) (value : String) (i : Item) : QueryRow :=
  ⟨i.itemID, valueID, value, i.dateAdded, i.clientDateModified⟩

/-- The result set of the query issued by `get_item_id`:

```
SELECT i.itemID, id.valueID, idv.value, i.dateAdded, i.clientDateModified
FROM itemDataValues idv
INNER JOIN itemData id ON id.valueID = idv.valueID
INNER JOIN items i ON i.itemID = id.itemID
WHERE idv.value LIKE '%title%'
```

as a nested-loop join in the written join order.  The query has no
`ORDER BY`, so the engine's natural order is modelled by the row order of
the stored lists. -/
def queryResults (db : DB) (title : String) : List QueryRow :=
  (db.itemDataValues.filter fun idv =>
      likeMatch ("%" ++ title ++ "%") idv.value).flatMap fun idv =>
    (db.itemData.filter fun d => d.valueID == idv.valueID).flatMap fun d =>
      (db.items.filter fun i => i.itemID == d.itemID).map (mkQueryRow d.valueID idv.value)

/-- The errors of the program, named after the spec's taxonomy:
`invalidInput` is the `ValueError` raised for an empty/`None` title,
`notFound` the `ValueError` raised for an empty result set, and
`connectionError` the `sqlite3.OperationalError` of a failed connect. -/
inductive ZoteroError where
  | invalidInput (msg : String)
  | notFound (title : String)
  | connectionError (msg : String)
deriving DecidableEq, Repr

/-- `get_item_id` (src lines 104-195), instrumented: returns the result, the
database as the call leaves it, and the number of `SELECT` statements the
call executed.  `title_name` is `Option String` because the config value may
be `None`; Python's `if not self.title_name` is true exactly when the title
is `None` or the empty string.  The method only reads, so the returned
database is the input database on every branch. -/
def get_item_id_run (db : DB) (title_name : Option String) :
    Except ZoteroError Nat × DB × Nat :=
  if title_name.getD "" = "" then
    (.error (.invalidInput "Title name cannot be None or empty."), db, 0)
  else
    match queryResults db (title_name.getD "") with
    | [] => (.error (.notFound (title_name.getD "")), db, 1)
    | r :: _ => (.ok r.itemID, db, 1)

/-- The value `get_item_id` returns (or the error it raises): the `itemID`
of the first row of the result set, `results[0][0]`. -/
def get_item_id (db : DB) (title_name : Option String) : Except ZoteroError Nat :=
  (get_item_id_run db title_name).1

/-- A SQLite connection: the committed on-disk state and the state as seen
through the connection (pending statements of the open transaction included).
`cursor.execute` acts on `pending`; `conn.commit()` copies `pending` to
`committed`.  Reads through the same connection see `pending`. -/
structure Conn where
  committed : DB
  pending : DB
deriving DecidableEq, Repr

/-- Opening a connection to an on-disk database: nothing is pending. -/
def Conn.openDB (db : DB) : Conn := ⟨db, db⟩

/-- The effect of `UPDATE items SET dateAdded = ? WHERE itemID = ?` on one
`items` row: a row whose `itemID` matches gets `dateAdded` replaced and
keeps every other column; any other row is left exactly as it is. -/
def updRow (item_id : Nat) (newDate : String) (i : Item) : Item :=
  if i.itemID = item_id then { i with dateAdded := newDate } else i

/-- The corresponding effect on a row of `get_item_id`'s result set: the
`dateAdded` column of the rows of the matched item changes, nothing else. -/
def updQRow (item_id : Nat) (newDate : String) (r : QueryRow) : QueryRow :=
  if r.itemID = item_id then { r with dateAdded := newDate } else r

/-- The `UPDATE items SET dateAdded = ? WHERE itemID = ?` statement executed
by `update_date_added` (src lines 219-224): every `items` row whose `itemID`
matches gets `dateAdded` replaced; every other row and every other column is
left as it is; `itemData` and `itemDataValues` are untouched. -/
def update_items (db : DB) (item_id : Nat) (newDate : String) : DB :=
  { db with items := db.items.map (updRow item_id newDate) }

/-- `update_date_added` (src lines 197-246), instrumented with the number of
resolution `SELECT`s it executes.  The method takes only the connection: it
resolves the item id itself by calling `get_item_id` (src line 212), then
executes the single-row `UPDATE` and immediately calls `conn.commit()`
(src line 225).  The `if not item_id` check at src line 214 only logs and
does not raise, so it has no semantic effect. -/
def update_date_added_run (c : Conn) (title_name : Option String)
    (new_date_added : String) : Except ZoteroError Conn × Nat :=
  match get_item_id c.pending title_name with
  | .error e => (.error e, (get_item_id_run c.pending title_name).2.2)
  | .ok item_id =>
      (.ok ⟨update_items c.pending item_id new_date_added,
            update_items c.pending item_id new_date_added⟩,
        (get_item_id_run c.pending title_name).2.2)

/-- The connection state `update_date_added` leaves behind (or the error it
raises). -/
def update_date_added (c : Conn) (title_name : Option String)
    (new_date_added : String) : Except ZoteroError Conn :=
  (update_date_added_run c title_name new_date_added).1

/-- Re-reading one item's `dateAdded`:
`SELECT dateAdded FROM items WHERE itemID = ?`, first row. -/
def readDateAdded (db : DB) (item_id : Nat) : Option String :=
  (db.items.find? fun i => i.itemID == item_id).map Item.dateAdded

/-- What the configured database path names on disk, as far as
`sqlite3.connect` cares: an existing database file, a missing file whose
directory exists and is writable, or an inaccessible path (missing
directory, permission denied, ...). -/
inductive PathState where
  | existingDB
  | missingFileWritableDir
  | inaccessible
deriving DecidableEq, Repr

/-- Model of `sqlite3.connect(path)` as called by `connect_to_db`
(src line 87), with SQLite's default open semantics: an existing database
file is opened; a missing file in an accessible directory is silently
created as an empty database (the Boolean records that a new file was
created); an inaccessible path raises `sqlite3.OperationalError`
("unable to open database file").  `disk` is the database stored at the
path when the path names an existing file. -/
def sqlite3_connect (disk : DB) : PathState → Except ZoteroError (Conn × Bool)
  | .existingDB => .ok (Conn.openDB disk, false)
  | .missingFileWritableDir => .ok (Conn.openDB ⟨[], [], []⟩, true)
  | .inaccessible => .error (.connectionError "unable to open database file")

/-- `connect_to_db` (src lines 80-102): calls `sqlite3.connect` and returns
the connection; every `except` clause only logs and re-raises, so the
result is exactly that of `sqlite3.connect`. -/
def connect_to_db (disk : DB) (ps : PathState) : Except ZoteroError (Conn × Bool) :=
  sqlite3_connect disk ps

/-- How the `__main__` block of `main.py` terminates. -/
inductive RunOutcome where
  /-- every statement succeeded, exit code 0. -/
  | success
  /-- an operation raised; the error was logged and re-raised. -/
  | failed (e : ZoteroError)
  /-- the `finally` block evaluated `if conn:` while the local `conn` was
  never bound, raising `NameError` in place of the original error. -/
  | nameError
deriving DecidableEq, Repr

/-- The observable result of one run of `main.py`. -/
structure RunResult where
  outcome : RunOutcome
  connOpened : Bool
  connClosed : Bool
  /-- how many times the resolution `SELECT` of `get_item_id` was executed. -/
  resolveQueries : Nat
  /-- the committed database at process end, when a connection was obtained. -/
  finalCommitted : Option DB
deriving DecidableEq, Repr

/-- The `__main__` block of `main.py` (lines 33-71):

```
try:
    conn = zotero_update_date_added.connect_to_db()
    itemId = zotero_update_date_added.get_item_id(conn)
    zotero_update_date_added.update_date_added(conn)
except Exception as e:
    ...; raise
finally:
    if conn:
        conn.close()
```

`connectResult` is what `connect_to_db` does for the configured path.  When
it raises, the assignment to `conn` never happens, so the `finally` block's
`if conn:` reads an unbound name and raises `NameError`.  When it succeeds,
`conn` is a `sqlite3.Connection`, which is always truthy, so the connection
is closed on the success path and on both in-try failure paths.  The
`itemId` bound at line 54 is never used afterwards. -/
def main_run (connectResult : Except ZoteroError Conn) (title_name : Option String)
    (new_date_added : String) : RunResult :=
  match connectResult with
  | .error _ =>
      { outcome := .nameError, connOpened := false, connClosed := false,
        resolveQueries := 0, finalCommitted := none }
  | .ok c =>
      match get_item_id c.pending title_name with
      | .error e =>
          { outcome := .failed e, connOpened := true, connClosed := true,
            resolveQueries := (get_item_id_run c.pending title_name).2.2,
            finalCommitted := some c.committed }
      | .ok _itemId =>
          match update_date_added c title_name new_date_added with
          | .error e =>
              { outcome := .failed e, connOpened := true, connClosed := true,
                resolveQueries := (get_item_id_run c.pending title_name).2.2 +
                  (update_date_added_run c title_name new_date_added).2,
                finalCommitted := some c.committed }
          | .ok c' =>
              { outcome := .success, connOpened := true, connClosed := true,
                resolveQueries := (get_item_id_run c.pending title_name).2.2 +
                  (update_date_added_run c title_name new_date_added).2,
                finalCommitted := some c'.committed }

/-- Literal (non-wildcard) substring containment on character lists:
`isPrefixChars sub s` is true when `sub` is an initial segment of `s`. -/
def isPrefixChars : List Char → List Char → Bool
  | [], _ => true
  | _ :: _, [] => false
  | a :: as, b :: bs => a == b && isPrefixChars as bs

/-- `containsSeq sub s` is true when `sub` occurs contiguously in `s`. -/
def containsSeq (sub : List Char) : List Char → Bool
  | [] => sub.isEmpty
  | c :: cs => isPrefixChars sub (c :: cs) || containsSeq sub cs

/-- `containsLiteral s sub` is true when the string `s` contains `sub` as a
literal substring (every character taken verbatim, no wildcards). -/
def containsLiteral (s sub : String) : Bool :=
  containsSeq sub.toList s.toList

/-- A concrete database used to exercise the operations: two pre-existing
items with one linked data value each, following the spec's concrete
scenario (item 53 is "The Design Of Everyday Things"). -/
def sampleDB : DB :=
  { items := [⟨53, "2020-01-05 10:00:00", "2020-01-06 11:00:00"⟩,
              ⟨54, "2021-02-05 10:00:00", "2021-02-06 11:00:00"⟩],
    itemData := [⟨53, 385⟩, ⟨54, 386⟩],
    itemDataValues := [⟨385, "The Design Of Everyday Things"⟩,
                       ⟨386, "What are ethical frameworks?"⟩] }

/-- `sampleDB` after item 53's `dateAdded` has been set to the configured
new date. -/
def sampleDB53 : DB :=
  { sampleDB with items := [⟨53, "2024-11-30 09:57:32", "2020-01-06 11:00:00"⟩,
                            ⟨54, "2021-02-05 10:00:00", "2021-02-06 11:00:00"⟩] }

/-- A concrete database holding one item whose single data value is the
three-character string "axb": it does not contain the percent sign at all. -/
def wildcardDB : DB :=
  { items := [⟨7, "2020-01-05 10:00:00", "2020-01-06 11:00:00"⟩],
    itemData := [⟨7, 99⟩],
    itemDataValues := [⟨99, "axb"⟩] }

end ZoteroInfoUpdate

namespace ZoteroInfoUpdate

/-! ### Helper lemmas about the embedded operations -/

theorem get_item_id_run_state (db : DB) (t : Option String) :
    (get_item_id_run db t).2.1 = db := by
  unfold get_item_id_run
  split
  · rfl
  · split <;> rfl

theorem get_item_id_run_count (db : DB) (t : Option String) :
    (get_item_id_run db t).2.2 = if t.getD "" = "" then 0 else 1 := by
  unfold get_item_id_run
  split
  · simp_all
  · split <;> simp_all

theorem get_item_id_run_count_ok (db : DB) (t : Option String) (item_id : Nat)
    (h : get_item_id db t = .ok item_id) : (get_item_id_run db t).2.2 = 1 := by
  rw [get_item_id_run_count]
  by_cases ht : t.getD "" = ""
  · exfalso
    unfold get_item_id get_item_id_run at h
    simp [ht] at h
  · simp [ht]

theorem update_date_added_run_count (c : Conn) (t : Option String) (d : String) :
    (update_date_added_run c t d).2 = (get_item_id_run c.pending t).2.2 := by
  unfold update_date_added_run
  cases get_item_id c.pending t <;> rfl

theorem mem_queryResults (db : DB) (t : String) (r : QueryRow)
    (h : r ∈ queryResults db t) : ∃ i ∈ db.items, i.itemID = r.itemID := by
  unfold queryResults at h
  simp only [List.mem_flatMap, List.mem_map, List.mem_filter] at h
  obtain ⟨idv, _, d, _, i, ⟨hi, _⟩, rfl⟩ := h
  exact ⟨i, hi, rfl⟩

theorem get_item_id_ok_exists (db : DB) (t : Option String) (item_id : Nat)
    (h : get_item_id db t = .ok item_id) : ∃ i ∈ db.items, i.itemID = item_id := by
  unfold get_item_id get_item_id_run at h
  by_cases ht : t.getD "" = ""
  · simp [ht] at h
  · rw [if_neg ht] at h
    cases hq : queryResults db (t.getD "") with
    | nil => rw [hq] at h; simp at h
    | cons r rs =>
        rw [hq] at h
        simp only [Except.ok.injEq] at h
        subst h
        exact mem_queryResults db (t.getD "") r (hq ▸ List.mem_cons_self r rs)

theorem updRow_itemID (item_id : Nat) (d : String) (i : Item) :
    (updRow item_id d i).itemID = i.itemID := by
  unfold updRow
  split <;> rfl

theorem updQRow_itemID (item_id : Nat) (d : String) (r : QueryRow) :
    (updQRow item_id d r).itemID = r.itemID := by
  unfold updQRow
  split <;> rfl

theorem mkQueryRow_updRow (valueID : Nat) (value : String) (item_id : Nat)
    (d : String) (i : Item) :
    mkQueryRow valueID value (updRow item_id d i) =
      updQRow item_id d (mkQueryRow valueID value i) := by
  unfold mkQueryRow updRow updQRow
  by_cases h : i.itemID = item_id <;> simp [h]

theorem filter_map_updRow (l : List Item) (item_id k : Nat) (d : String) :
    ((l.map (updRow item_id d)).filter fun i => i.itemID == k) =
      (l.filter fun i => i.itemID == k).map (updRow item_id d) := by
  induction l with
  | nil => rfl
  | cons a l ih =>
      simp only [List.map_cons, List.filter_cons, updRow_itemID]
      by_cases h : (a.itemID == k) = true
      · simp [h, ih]
      · simp only [Bool.not_eq_true] at h
        simp [h, ih]

theorem queryResults_update_items (db : DB) (item_id : Nat) (d t : String) :
    queryResults (update_items db item_id d) t =
      (queryResults db t).map (updQRow item_id d) := by
  unfold queryResults update_items
  simp only [List.map_flatMap, List.map_map, filter_map_updRow, Function.comp_def,
    mkQueryRow_updRow]

theorem get_item_id_update_items (db : DB) (item_id : Nat) (d : String)
    (t : Option String) :
    get_item_id (update_items db item_id d) t = get_item_id db t := by
  unfold get_item_id get_item_id_run
  by_cases ht : t.getD "" = ""
  · simp [ht]
  · rw [if_neg ht, if_neg ht, queryResults_update_items]
    cases hq : queryResults db (t.getD "") with
    | nil => simp
    | cons r rs => simp [updQRow_itemID]

theorem updRow_updRow (item_id : Nat) (d : String) (i : Item) :
    updRow item_id d (updRow item_id d i) = updRow item_id d i := by
  unfold updRow
  by_cases h : i.itemID = item_id <;> simp [h]

theorem update_items_idem (db : DB) (item_id : Nat) (d : String) :
    update_items (update_items db item_id d) item_id d = update_items db item_id d := by
  unfold update_items
  simp only [List.map_map, Function.comp_def, updRow_updRow]

theorem find?_map_updRow (l : List Item) (item_id : Nat) (d : String)
    (hex : ∃ i ∈ l, i.itemID = item_id) :
    (((l.map (updRow item_id d)).find? fun i => i.itemID == item_id).map
        Item.dateAdded) = some d := by
  induction l with
  | nil => simp at hex
  | cons a l ih =>
      by_cases ha : a.itemID = item_id
      · simp [updRow, ha, List.find?_cons]
      · have hex' : ∃ i ∈ l, i.itemID = item_id := by
          obtain ⟨i, hi, hid⟩ := hex
          rcases List.mem_cons.mp hi with rfl | hi'
          · exact absurd hid ha
          · exact ⟨i, hi', hid⟩
        have hb : (a.itemID == item_id) = false := by simp [ha]
        simp only [List.map_cons, List.find?_cons, updRow_itemID, hb]
        exact ih hex'

theorem readDateAdded_update_items (db : DB) (item_id : Nat) (d : String)
    (hex : ∃ i ∈ db.items, i.itemID = item_id) :
    readDateAdded (update_items db item_id d) item_id = some d := by
  unfold readDateAdded update_items
  exact find?_map_updRow db.items item_id d hex

theorem update_date_added_eq (c : Conn) (t : Option String) (d : String) :
    update_date_added c t d =
      match get_item_id c.pending t with
      | .error e => .error e
      | .ok item_id =>
          .ok ⟨update_items c.pending item_id d, update_items c.pending item_id d⟩ := by
  unfold update_date_added update_date_added_run
  cases get_item_id c.pending t <;> rfl

end ZoteroInfoUpdate

/-! ### Claim theorems -/

open ZoteroInfoUpdate

/-- C1: for every database and every non-empty title substring, `get_item_id`
performs the case-insensitive `LIKE '%substring%'` match across all data
values joined to their owning items (`queryResults`) and returns the item
identifier of the first row of the result set in its natural order; in
particular, when the substring matches exactly one item, that item's
identifier is returned. -/
theorem C1_resolve_returns_first_match (db : DB) (t : String) (ht : t ≠ "")
    (r : QueryRow) (rs : List QueryRow) (hq : queryResults db t = r :: rs) :
    get_item_id db (some t) = .ok r.itemID := by
  unfold get_item_id get_item_id_run
  simp [ht, hq]

/-- Witness for C1: in `sampleDB` the substring "Design Of Everyday" matches
exactly one row, owned by item 53, and `get_item_id` returns 53. -/
theorem C1_witness :
    ("Design Of Everyday" ≠ "") ∧
      queryResults sampleDB "Design Of Everyday" =
        [⟨53, 385, "The Design Of Everyday Things", "2020-01-05 10:00:00",
          "2020-01-06 11:00:00"⟩] ∧
      get_item_id sampleDB (some "Design Of Everyday") = .ok 53 :=
  ⟨by decide, by decide,
    C1_resolve_returns_first_match sampleDB "Design Of Everyday" (by decide)
      ⟨53, 385, "The Design Of Everyday Things", "2020-01-05 10:00:00",
        "2020-01-06 11:00:00"⟩ [] (by decide)⟩

/-- C2: for every database and every non-empty title substring whose result
set is empty, `get_item_id` fails with the not-found error rather than
returning an identifier. -/
theorem C2_resolve_not_found (db : DB) (t : String) (ht : t ≠ "")
    (hq : queryResults db t = []) :
    get_item_id db (some t) = .error (.notFound t) := by
  unfold get_item_id get_item_id_run
  simp [ht, hq]

/-- Witness for C2: no data value of `sampleDB` matches
"Nonexistent Title", and `get_item_id` fails with the not-found error. -/
theorem C2_witness :
    ("Nonexistent Title" ≠ "") ∧
      queryResults sampleDB "Nonexistent Title" = [] ∧
      get_item_id sampleDB (some "Nonexistent Title") =
        .error (.notFound "Nonexistent Title") :=
  ⟨by decide, by decide,
    C2_resolve_not_found sampleDB "Nonexistent Title" (by decide) (by decide)⟩

/-- C3: for a `None` or empty title substring, `get_item_id` fails with the
invalid-input error, executes zero `SELECT` statements, and leaves the
database exactly as it was. -/
theorem C3_resolve_empty_title (db : DB) (t : Option String)
    (ht : t = none ∨ t = some "") :
    get_item_id_run db t =
      (.error (.invalidInput "Title name cannot be None or empty."), db, 0) := by
  rcases ht with rfl | rfl <;> rfl

/-- Witness for C3: a `None` title on `sampleDB`. -/
theorem C3_witness :
    ((none : Option String) = none ∨ (none : Option String) = some "") ∧
      get_item_id_run sampleDB none =
        (.error (.invalidInput "Title name cannot be None or empty."), sampleDB, 0) :=
  ⟨Or.inl rfl, C3_resolve_empty_title sampleDB none (Or.inl rfl)⟩

/-- C4: whenever `update_date_added` succeeds, there is a resolved item
identifier such that the new state is exactly the single-row update of that
item's `dateAdded`, the connection is fully committed at once
(`committed = pending`: the single-statement transaction was committed
immediately), and re-reading that item's `dateAdded` returns exactly the new
date string. -/
theorem C4_update_sets_date_added (c c' : Conn) (t : Option String) (d : String)
    (h : update_date_added c t d = .ok c') :
    ∃ item_id, get_item_id c.pending t = .ok item_id ∧
      c'.pending = update_items c.pending item_id d ∧
      c'.committed = c'.pending ∧
      readDateAdded c'.committed item_id = some d := by
  rw [update_date_added_eq] at h
  cases hid : get_item_id c.pending t with
  | error e => rw [hid] at h; exact absurd h (by simp)
  | ok item_id =>
      rw [hid] at h
      simp only [Except.ok.injEq] at h
      subst h
      exact ⟨item_id, rfl, rfl, rfl,
        readDateAdded_update_items c.pending item_id d
          (get_item_id_ok_exists c.pending t item_id hid)⟩


/-- Witness for C4: updating `sampleDB` through the configured title and
date succeeds and yields `sampleDB53`, whose item 53 re-reads as the new
date. -/
theorem C4_witness :
    (update_date_added (Conn.openDB sampleDB) (some "Design Of Everyday")
        "2024-11-30 09:57:32" = .ok (Conn.openDB sampleDB53)) ∧
      ∃ item_id, get_item_id sampleDB (some "Design Of Everyday") = .ok item_id ∧
        (Conn.openDB sampleDB53).pending =
          update_items sampleDB item_id "2024-11-30 09:57:32" ∧
        (Conn.openDB sampleDB53).committed = (Conn.openDB sampleDB53).pending ∧
        readDateAdded (Conn.openDB sampleDB53).committed item_id =
          some "2024-11-30 09:57:32" :=
  ⟨by decide,
    C4_update_sets_date_added (Conn.openDB sampleDB) (Conn.openDB sampleDB53)
      (some "Design Of Everyday") "2024-11-30 09:57:32" (by decide)⟩

/-- C5: `update_date_added` is idempotent: when a call succeeds and leaves
connection state `c'`, running the same update again on `c'` succeeds and
returns exactly `c'` — the final database state after two runs equals the
state after one. -/
theorem C5_update_idempotent (c c' : Conn) (t : Option String) (d : String)
    (h : update_date_added c t d = .ok c') :
    update_date_added c' t d = .ok c' := by
  rw [update_date_added_eq] at h
  cases hid : get_item_id c.pending t with
  | error e => rw [hid] at h; exact absurd h (by simp)
  | ok item_id =>
      rw [hid] at h
      simp only [Except.ok.injEq] at h
      subst h
      rw [update_date_added_eq]
      simp only [get_item_id_update_items, hid, update_items_idem]

/-- Witness for C5: re-running the sample update on its own result is a
no-op. -/
theorem C5_witness :
    (update_date_added (Conn.openDB sampleDB) (some "Design Of Everyday")
        "2024-11-30 09:57:32" = .ok (Conn.openDB sampleDB53)) ∧
      update_date_added (Conn.openDB sampleDB53) (some "Design Of Everyday")
        "2024-11-30 09:57:32" = .ok (Conn.openDB sampleDB53) :=
  ⟨by decide,
    C5_update_idempotent (Conn.openDB sampleDB) (Conn.openDB sampleDB53)
      (some "Design Of Everyday") "2024-11-30 09:57:32" (by decide)⟩

/-- C6: frame property.  A successful `update_date_added` leaves `itemData`
and `itemDataValues` untouched, creates and deletes no `items` row, maps
each `items` row through `updRow` for the resolved identifier — so only the
`dateAdded` column of the rows with the matched identifier changes and every
other row and every other column (`itemID`, `clientDateModified`) is left
exactly as it was — and the committed and pending states agree.  The
resolver `get_item_id` leaves the database unchanged on every input. -/
theorem C6_frame_effect (c c' : Conn) (t : Option String) (d : String)
    (h : update_date_added c t d = .ok c') :
    (∀ (db : DB) (t0 : Option String), (get_item_id_run db t0).2.1 = db) ∧
      c'.pending.itemData = c.pending.itemData ∧
      c'.pending.itemDataValues = c.pending.itemDataValues ∧
      c'.pending.items.length = c.pending.items.length ∧
      c'.committed = c'.pending ∧
      ∃ item_id, get_item_id c.pending t = .ok item_id ∧
        c'.pending.items = c.pending.items.map (updRow item_id d) := by
  rw [update_date_added_eq] at h
  cases hid : get_item_id c.pending t with
  | error e => rw [hid] at h; exact absurd h (by simp)
  | ok item_id =>
      rw [hid] at h
      simp only [Except.ok.injEq] at h
      subst h
      exact ⟨get_item_id_run_state, rfl, rfl, by simp [update_items], rfl,
        item_id, rfl, rfl⟩

/-- Witness for C6: the sample update on item 53. -/
theorem C6_witness :
    (update_date_added (Conn.openDB sampleDB) (some "Design Of Everyday")
        "2024-11-30 09:57:32" = .ok (Conn.openDB sampleDB53)) ∧
      (∀ (db : DB) (t0 : Option String), (get_item_id_run db t0).2.1 = db) ∧
      (Conn.openDB sampleDB53).pending.itemData = sampleDB.itemData ∧
      (Conn.openDB sampleDB53).pending.itemDataValues = sampleDB.itemDataValues ∧
      (Conn.openDB sampleDB53).pending.items.length = sampleDB.items.length ∧
      (Conn.openDB sampleDB53).committed = (Conn.openDB sampleDB53).pending ∧
      ∃ item_id, get_item_id sampleDB (some "Design Of Everyday") = .ok item_id ∧
        (Conn.openDB sampleDB53).pending.items =
          sampleDB.items.map (updRow item_id "2024-11-30 09:57:32") :=
  ⟨by decide,
    C6_frame_effect (Conn.openDB sampleDB) (Conn.openDB sampleDB53)
      (some "Design Of Everyday") "2024-11-30 09:57:32" (by decide)⟩

/-- C7: evaluation of `main.py`'s run at the failing input (the configured
path cannot be opened, so `connect_to_db` raises).  The local `conn` is
never bound, the `except` clause re-raises, and the `finally` block's
`if conn:` reads the unbound name and raises `NameError` — the run does not
end with the original error and a cleanly skipped close step, contradicting
the claim that the close step never fails with a different error when the
connection was never opened. -/
theorem C7_close_step_raises_name_error_when_never_opened :
    main_run (.error (.connectionError "unable to open database file"))
        (some "The Design Of Everyday Things") "2024-11-30 09:57:32" =
      { outcome := .nameError, connOpened := false, connClosed := false,
        resolveQueries := 0, finalCommitted := none } := rfl

/-- C8 counterexample: connecting to a nonexistent file path whose directory
is accessible does not raise — `sqlite3.connect` silently creates an empty
database (the `true` flag records that a new file was created) and returns a
connection, refuting the claim that such a connect raises `ConnectionError`
rather than silently creating an empty database file. -/
theorem C8_counterexample_missing_file_creates_db :
    connect_to_db sampleDB .missingFileWritableDir =
      .ok (Conn.openDB ⟨[], [], []⟩, true) := rfl

/-- C8 amended: `connect_to_db` fails with `ConnectionError` when the path
is inaccessible (invalid directory, no permission — the engine reports an
operational fault), while connecting to a nonexistent file path in an
accessible directory silently creates an empty database and succeeds, and
connecting to an existing database file opens it. -/
theorem C8_connect_semantics (disk : DB) :
    connect_to_db disk .inaccessible =
        .error (.connectionError "unable to open database file") ∧
      connect_to_db disk .missingFileWritableDir =
        .ok (Conn.openDB ⟨[], [], []⟩, true) ∧
      connect_to_db disk .existingDB = .ok (Conn.openDB disk, false) :=
  ⟨rfl, rfl, rfl⟩

/-- C9: `update_date_added` consumes no caller-supplied item identifier — it
takes only the connection, resolves the title itself through `get_item_id`,
and updates the item that internal call returns.  Hence on a successful full
run of `main.py` the `itemId` fetched separately at the call site never
influences which row is updated (the final committed state is the update of
the internally resolved identifier), and the resolution query is executed
exactly twice. -/
theorem C9_update_resolves_internally (c : Conn) (t : Option String) (d : String)
    (hs : (main_run (.ok c) t d).outcome = .success) :
    (main_run (.ok c) t d).resolveQueries = 2 ∧
      ∃ item_id, get_item_id c.pending t = .ok item_id ∧
        (main_run (.ok c) t d).finalCommitted =
          some (update_items c.pending item_id d) := by
  simp only [main_run] at hs ⊢
  split at hs
  · simp at hs
  · rename_i item_id hid
    split at hs
    · simp at hs
    · rename_i c' hu
      simp only [hid, hu]
      have he := update_date_added_eq c t d
      simp only [hid] at he
      have hc' : c' = ⟨update_items c.pending item_id d,
          update_items c.pending item_id d⟩ := by
        simpa using hu.symm.trans he
      refine ⟨?_, item_id, rfl, ?_⟩
      · rw [update_date_added_run_count,
          get_item_id_run_count_ok c.pending t item_id hid]
      · rw [hc']

/-- Witness for C9: a successful run on `sampleDB`. -/
theorem C9_witness :
    ((main_run (.ok (Conn.openDB sampleDB)) (some "Design Of Everyday")
        "2024-11-30 09:57:32").outcome = .success) ∧
      (main_run (.ok (Conn.openDB sampleDB)) (some "Design Of Everyday")
          "2024-11-30 09:57:32").resolveQueries = 2 ∧
      ∃ item_id, get_item_id sampleDB (some "Design Of Everyday") = .ok item_id ∧
        (main_run (.ok (Conn.openDB sampleDB)) (some "Design Of Everyday")
            "2024-11-30 09:57:32").finalCommitted =
          some (update_items sampleDB item_id "2024-11-30 09:57:32") :=
  ⟨by decide,
    C9_update_resolves_internally (Conn.openDB sampleDB)
      (some "Design Of Everyday") "2024-11-30 09:57:32" (by decide)⟩

/-- C10: the search substring is interpolated into the `LIKE` pattern with
no escaping of SQL wildcards: for the substring "a%b" — which contains a
percent sign — `get_item_id` on `wildcardDB` returns item 7, even though no
stored data value contains the literal characters "a%b"; the '%' acts as a
wildcard and the value "axb" matches. -/
theorem C10_wildcards_unescaped :
    ("a%b".toList.contains '%') = true ∧
      get_item_id wildcardDB (some "a%b") = .ok 7 ∧
      (wildcardDB.itemDataValues.all fun v => !(containsLiteral v.value "a%b")) = true :=
  ⟨by decide, by decide, by decide⟩
